import Mathlib

/-
A shallow embedding of the ingestion pipeline of stream-loader.py.

The Python source is a gevent-based stream loader: input adapters
(stdin / file / url / kafka) feed JSON lines through optional default-field
enrichment into a bounded queue drained by workers that submit each record
to the Senzing G2 engine (the "Sink"), while a monitor task reports rates
and worker liveness.

Modelling conventions:
* A parsed JSON object (a Python dict coming out of json.loads) is an
  association list from string keys to values (`JDict`); CPython dict keys
  are unique, which theorems assume through explicit Nodup hypotheses.
* JSON container values (arrays / nested objects) are carried as opaque
  leaves (`Json.container`): no code path modelled here inspects inside a
  value, it only looks keys up at the top level and stringifies
  `DATA_SOURCE` / `RECORD_ID` values.
* json.dumps(d, sort_keys=True) followed by json.loads is modelled at the
  structure level by `dumpsSortKeys`, which lists the top-level keys in
  sorted order; for unique keys this is the same association as d.
* The Sink (g2_engine.addRecord) is a parameter: a function from the
  data-source tag, record id and payload to one of the exception outcomes
  the code distinguishes.
* Uncaught Python exceptions are explicit values (`PyErr`), and each worker
  loop returns how it ended (`WorkerEnd`): the gevent queue semantics of
  get() with and without a timeout is modelled by `gevent_queue_get`.
-/

set_option maxHeartbeats 1000000

namespace StreamLoader

/-- A JSON value as produced by Python's json.loads. Numbers are modelled as
integers and container values (arrays, nested objects) as opaque leaves,
since no modelled code path inspects inside a top-level value. -/
inductive Json where
  | null
  | bool (b : Bool)
  | num (n : Int)
  | str (s : String)
  | container (repr : String)
  deriving DecidableEq

/-- A Python dict obtained from json.loads on a JSON object: an association
list from keys to values. -/
abbrev JDict := List (String × Json)

/-- Key lookup in a dict, mirroring json_dictionary[key]. -/
def jlookup (k : String) : JDict → Option Json
  | [] => none
  | (k₁, v) :: rest => if k₁ = k then some v else jlookup k rest

/-- Mirrors the Python membership test: key in json_dictionary. -/
def containsKey (k : String) (d : JDict) : Bool :=
  (jlookup k d).isSome

/-- Model of the guarded assignment pattern used by the enrichment code:
if key not in d: d[key] = v.  New keys land at the end. -/
def insertIfMissing (k : String) (v : Json) (d : JDict) : JDict :=
  if containsKey k d then d else d ++ [(k, v)]

/-- Order on dict entries by key, the order json.dumps(…, sort_keys=True)
serializes top-level keys in: lexicographic comparison of the key strings
as character sequences (String order is exactly the order of the
underlying character lists). -/
def keyLE (a b : String × Json) : Prop := a.1.data ≤ b.1.data

instance : DecidableRel keyLE :=
  fun a b => inferInstanceAs (Decidable (a.1.data ≤ b.1.data))

instance : IsTotal (String × Json) keyLE := ⟨fun a b => le_total a.1.data b.1.data⟩

instance : IsTrans (String × Json) keyLE := ⟨fun _ _ _ h₁ h₂ => le_trans h₁ h₂⟩

/-- Model of json.dumps(d, sort_keys=True) (followed by parsing it back) at
the level of the top-level key/value structure: the keys are listed in
sorted order.  On unique keys any sort agrees with CPython's stable sort,
so insertion sort is used to keep the definition kernel-computable. -/
def dumpsSortKeys (d : JDict) : JDict :=
  d.insertionSort keyLE

/-- The top-level keys appear in (non-strictly) sorted order. -/
def keysSorted (d : JDict) : Prop :=
  List.Sorted (fun a b => a ≤ b) (d.map Prod.fst)

/-- Python str() of a value read out of a parsed JSON dict, as applied to
the DATA_SOURCE / RECORD_ID entries.  str(None) is the four-letter string
None; the precise repr of container values is never relied on. -/
def pyStr : Json → String
  | .null => "None"
  | .bool true => "True"
  | .bool false => "False"
  | .num n => toString n
  | .str s => s
  | .container r => r

/-- The characters Python 2 str.strip() removes. -/
def isPyWhitespace (c : Char) : Bool :=
  c = ' ' || c = '\t' || c = '\n' || c = '\r' || c = '\x0b' || c = '\x0c'

def stripList (l : List Char) : List Char :=
  ((l.dropWhile isPyWhitespace).reverse.dropWhile isPyWhitespace).reverse

/-- Python line.strip(): drop leading and trailing whitespace. -/
def pyStrip (s : String) : String :=
  String.mk (stripList s.data)

/-- True when the string has neither a leading nor a trailing whitespace
character (so str.strip() leaves it unchanged). -/
def noEdgeWhitespace (s : String) : Bool :=
  !isPyWhitespace (s.data.headD 'x') && !isPyWhitespace (s.data.reverse.headD 'x')

-- ---------------------------------------------------------------------------
-- output_line_* functions (the Line Enricher) and their factory
-- ---------------------------------------------------------------------------

/-- result_function_1: jsonlines_queue.put(line.strip()) — the queued text
when neither default is configured.  The line is not parsed. -/
def result_function_1 (line : String) : String :=
  pyStrip line

/-- result_function_2 (data_source default configured, entity_type not), at
the level of the parsed line: inject DATA_SOURCE if absent and queue
json.dumps(…, sort_keys=True). -/
def result_function_2 (data_source : String) (d : JDict) : JDict :=
  dumpsSortKeys (insertIfMissing "DATA_SOURCE" (.str data_source) d)

/-- result_function_3 (entity_type default configured, data_source not). -/
def result_function_3 (entity_type : String) (d : JDict) : JDict :=
  dumpsSortKeys (insertIfMissing "ENTITY_TYPE" (.str entity_type) d)

/-- result_function_4 (both defaults configured). -/
def result_function_4 (data_source entity_type : String) (d : JDict) : JDict :=
  dumpsSortKeys (insertIfMissing "ENTITY_TYPE" (.str entity_type)
    (insertIfMissing "DATA_SOURCE" (.str data_source) d))

/-- Which of the four candidate output-line functions the factory returns. -/
inductive EnricherChoice where
  | f1
  | f2
  | f3
  | f4
  deriving DecidableEq

/-- create_output_line_function_factory: selection of the output-line
function from which of the data_source / entity_type defaults are set. -/
def create_output_line_function_factory
    (data_source entity_type : Option String) : EnricherChoice :=
  if data_source.isSome && entity_type.isSome then .f4
  else if entity_type.isSome then .f3
  else if data_source.isSome then .f2
  else .f1

-- ---------------------------------------------------------------------------
-- send_jsonline_to_g2_engine (the submit step) and the queue worker
-- ---------------------------------------------------------------------------

/-- The outcomes of g2_engine.addRecord distinguished by the except clauses
of send_jsonline_to_g2_engine. -/
inductive SinkOutcome where
  | ok
  | translateError
  | moduleError
  | genericError
  deriving DecidableEq

/-- An abstract Sink: g2_engine.addRecord(data_source, record_id, jsonline)
as a function of the stringified tag, id, and the payload. -/
abbrev Sink := String → String → JDict → SinkOutcome

/-- Uncaught Python exceptions relevant to the modelled paths. -/
inductive PyErr where
  | keyError (k : String)
  | valueError
  deriving DecidableEq

/-- Observable actions of a worker iteration, in program order. -/
inductive Event where
  | incQueued
  | incProcessed
  | commitOffset
  | logInvalidJson
  | sinkAdd (dataSourceTag recordId : String) (payload : JDict)
  | logTranslateError
  | logModuleError
  deriving DecidableEq

def Event.isLog : Event → Bool
  | .logInvalidJson => true
  | .logTranslateError => true
  | .logModuleError => true
  | _ => false

/-- How one call of the submit step ends: it either returns (having logged
zero or one error) or lets a Python exception escape. -/
inductive SubmitResult where
  | done (events : List Event)
  | raised (e : PyErr)
  deriving DecidableEq

/-- send_jsonline_to_g2_engine on an already-parsed payload: look up
DATA_SOURCE and RECORD_ID (a missing key raises KeyError — these lookups sit
outside the try block), call addRecord, and catch exactly the three G2
exception kinds, logging each.  Nothing else is caught. -/
def send_jsonline_to_g2_engine (sink : Sink) (payload : JDict) : SubmitResult :=
  match jlookup "DATA_SOURCE" payload with
  | none => .raised (.keyError "DATA_SOURCE")
  | some dsv =>
    match jlookup "RECORD_ID" payload with
    | none => .raised (.keyError "RECORD_ID")
    | some ridv =>
      match sink (pyStr dsv) (pyStr ridv) payload with
      | .ok => .done [.sinkAdd (pyStr dsv) (pyStr ridv) payload]
      | .translateError => .done [.sinkAdd (pyStr dsv) (pyStr ridv) payload, .logTranslateError]
      | .moduleError => .done [.sinkAdd (pyStr dsv) (pyStr ridv) payload, .logModuleError]
      | .genericError => .done [.sinkAdd (pyStr dsv) (pyStr ridv) payload, .logModuleError]

/-- A queue entry, abstracted by the outcome of json.loads on its text:
none when the text is not valid JSON (json.loads raises ValueError),
some d when it parses to the object d. -/
abbrev QueueEntry := Option JDict

/-- The submit step applied to a dequeued entry: json.loads first. -/
def send_jsonline_on_entry (sink : Sink) : QueueEntry → SubmitResult
  | none => .raised .valueError
  | some d => send_jsonline_to_g2_engine sink d

/-- Result of gevent Queue.get(timeout): the head when the queue is
nonempty; on an empty queue it raises Empty only when a timeout was given,
otherwise the greenlet blocks forever. -/
inductive GetResult (α : Type) where
  | item (a : α)
  | raisesEmpty
  | blocks
  deriving DecidableEq

def gevent_queue_get (timeout : Option Nat) : List α → GetResult α
  | a :: _ => .item a
  | [] => if timeout.isSome then .raisesEmpty else .blocks

/-- How a worker greenlet's loop ends. -/
inductive WorkerEnd where
  | quittingTime
  | blockedForever
  | crashed (e : PyErr)
  deriving DecidableEq

/-- worker_send_jsonlines_to_g2_engine: dequeue, submit, increment
counter_processed_records, forever.  The queue is the list of entries the
producers will ever put (after which it stays empty).  The code calls
jsonlines_queue.get() with no timeout, so on the drained queue the greenlet
blocks; the except-Empty handler (message 122, quitting time) is reachable
only if get raised Empty.  A raised submit exception is not caught (the
try only catches Empty) and ends the greenlet. -/
def worker_send_jsonlines_to_g2_engine (sink : Sink) :
    List QueueEntry → Nat → Nat × WorkerEnd
  | [], n =>
    match gevent_queue_get (none : Option Nat) ([] : List QueueEntry) with
    | .raisesEmpty => (n, .quittingTime)
    | _ => (n, .blockedForever)
  | entry :: rest, n =>
    match send_jsonline_on_entry sink entry with
    | .raised e => (n, .crashed e)
    | .done _ => worker_send_jsonlines_to_g2_engine sink rest (n + 1)

/-- worker_send_jsonlines_to_log (the test-mode worker): same loop shape but
get uses timeout=1, so on the drained queue Empty is raised and the handler
logs quitting time. -/
def worker_send_jsonlines_to_log : List QueueEntry → Nat → Nat × WorkerEnd
  | [], n =>
    match gevent_queue_get (some 1) ([] : List QueueEntry) with
    | .raisesEmpty => (n, .quittingTime)
    | _ => (n, .blockedForever)
  | _ :: rest, n => worker_send_jsonlines_to_log rest n

-- ---------------------------------------------------------------------------
-- Kafka consume loop
-- ---------------------------------------------------------------------------

/-- A polled Kafka message: its value string, together with the outcome of
json.loads on the stripped value (none when parsing raises). -/
structure KafkaMessage where
  value : String
  parsed : Option JDict

/-- Counters held in the configuration dict. -/
structure Counters where
  queued : Nat
  processed : Nat
  bad : Nat
  deriving DecidableEq

def applyEvent (c : Counters) : Event → Counters
  | .incQueued => { c with queued := c.queued + 1 }
  | .incProcessed => { c with processed := c.processed + 1 }
  | _ => c

def applyEvents (c : Counters) (evs : List Event) : Counters :=
  evs.foldl applyEvent c

/-- The unconditional default-injection block of worker_read_from_kafka:
DATA_SOURCE then ENTITY_TYPE are injected whenever absent — with the value
None when the respective default is not configured — and the message is
re-serialized with sorted keys. -/
def kafka_enrich (data_source entity_type : Option String) (d : JDict) : JDict :=
  dumpsSortKeys
    (insertIfMissing "ENTITY_TYPE" ((entity_type.map Json.str).getD .null)
      (insertIfMissing "DATA_SOURCE" ((data_source.map Json.str).getD .null) d))

/-- One iteration of worker_read_from_kafka for a polled message: strip the
value (empty → skip, uncounted); count it queued; parse (failure → log,
commit, continue); enrich; submit; count it processed; commit.  A Python
exception escaping the submit step ends the loop with that error. -/
def worker_read_from_kafka_step (data_source entity_type : Option String)
    (sink : Sink) (msg : KafkaMessage) : List Event × Option PyErr :=
  if pyStrip msg.value = "" then ([], none)
  else
    match msg.parsed with
    | none => ([.incQueued, .logInvalidJson, .commitOffset], none)
    | some d =>
      match send_jsonline_to_g2_engine sink (kafka_enrich data_source entity_type d) with
      | .raised e => ([.incQueued], some e)
      | .done evs => (.incQueued :: evs ++ [.incProcessed, .commitOffset], none)

/-- The Kafka consume loop over a finite sequence of polled messages,
threading the counters; it stops early if an iteration lets an exception
escape. -/
def worker_read_from_kafka_run (data_source entity_type : Option String)
    (sink : Sink) : List KafkaMessage → Counters → Counters × Option PyErr
  | [], c => (c, none)
  | msg :: rest, c =>
    match worker_read_from_kafka_step data_source entity_type sink msg with
    | (evs, some e) => (applyEvents c evs, some e)
    | (evs, none) => worker_read_from_kafka_run data_source entity_type sink rest (applyEvents c evs)

-- ---------------------------------------------------------------------------
-- input_lines_* sources
-- ---------------------------------------------------------------------------

/-- input_lines_from_stdin over a stream of lines (readline yields each
element in turn, then the empty string at end-of-stream): the counter is
incremented before the line is tested, so the final empty read is counted
too.  Returns (number of counter_queued_records increments, lines handed to
the output-line function, in order). -/
def input_lines_from_stdin : List String → Nat × List String
  | [] => (1, [])
  | line :: rest =>
    if line = "" then (1, [])
    else
      let p := input_lines_from_stdin rest
      (p.1 + 1, line :: p.2)

/-- input_lines_from_file: the while-loop tests the line before counting,
so exactly the actual lines are counted. -/
def input_lines_from_file : List String → Nat × List String
  | [] => (0, [])
  | line :: rest =>
    if line = "" then (0, [])
    else
      let p := input_lines_from_file rest
      (p.1 + 1, line :: p.2)

-- ---------------------------------------------------------------------------
-- worker_monitor
-- ---------------------------------------------------------------------------

/-- Python int() applied to a ratio: truncation toward zero. -/
def pyInt (q : ℚ) : Int :=
  if 0 ≤ q then ⌊q⌋ else ⌈q⌉

/-- rate_processed_interval = int(elapsed_processed_records / elapsed_time),
where elapsed_processed_records = total - last. -/
def rate_processed_interval (total last : Nat) (elapsed_time : ℚ) : Int :=
  pyInt (((total : Int) - (last : Int) : Int) / elapsed_time)

/-- active_workers: len(workers) minus the workers whose greenlet is
ready(), i.e. the number of not-ready (still alive) workers.  The list
holds each worker's ready() flag. -/
def active_workers (workers : List Bool) : Nat :=
  (workers.filter (fun ready => !ready)).length

/-- The starvation check: warn when active_workers / float(len(workers))
is strictly below 0.5. -/
def starvation_warning (workers : List Bool) : Prop :=
  ((active_workers workers : ℚ) / (workers.length : ℚ)) < 1 / 2

-- ---------------------------------------------------------------------------
-- Association-list lemmas
-- ---------------------------------------------------------------------------

theorem jlookup_append_some {k : String} {v : Json} {l₁ : JDict} (l₂ : JDict)
    (h : jlookup k l₁ = some v) : jlookup k (l₁ ++ l₂) = some v := by
  induction l₁ with
  | nil => simp [jlookup] at h
  | cons p rest ih =>
    obtain ⟨k₁, w⟩ := p
    by_cases hk : k₁ = k
    · simpa [jlookup, hk] using h
    · simp only [jlookup, if_neg hk] at h
      simpa [jlookup, hk] using ih h

theorem jlookup_append_none {k : String} {l₁ : JDict} (l₂ : JDict)
    (h : jlookup k l₁ = none) : jlookup k (l₁ ++ l₂) = jlookup k l₂ := by
  induction l₁ with
  | nil => simp
  | cons p rest ih =>
    obtain ⟨k₁, w⟩ := p
    by_cases hk : k₁ = k
    · simp [jlookup, hk] at h
    · simp only [jlookup, if_neg hk] at h
      simpa [jlookup, hk] using ih h

theorem jlookup_eq_none_iff {k : String} {l : JDict} :
    jlookup k l = none ↔ k ∉ l.map Prod.fst := by
  induction l with
  | nil => simp [jlookup]
  | cons p rest ih =>
    obtain ⟨k₁, w⟩ := p
    by_cases hk : k₁ = k
    · simp [jlookup, hk]
    · simp [jlookup, hk, ih, Ne.symm hk]

theorem containsKey_iff_mem {k : String} {l : JDict} :
    containsKey k l = true ↔ k ∈ l.map Prod.fst := by
  rw [containsKey, Option.isSome_iff_ne_none]
  simp only [ne_eq, jlookup_eq_none_iff, not_not]

theorem containsKey_eq_false_iff {k : String} {l : JDict} :
    containsKey k l = false ↔ k ∉ l.map Prod.fst := by
  rw [← Bool.not_eq_true, not_iff_not]
  exact containsKey_iff_mem

theorem bool_eq_false {b : Bool} (h : ¬ b = true) : b = false := by
  cases b
  · rfl
  · exact absurd rfl h

theorem containsKey_false_iff_none {k : String} {d : JDict} :
    containsKey k d = false ↔ jlookup k d = none := by
  rw [containsKey]
  cases jlookup k d <;> simp

theorem dropWhile_length_le (p : Char → Bool) (l : List Char) :
    (l.dropWhile p).length ≤ l.length :=
  (List.dropWhile_suffix p).sublist.length_le

theorem jlookup_perm (k : String) {l₁ l₂ : JDict} (h : l₁.Perm l₂) :
    (l₁.map Prod.fst).Nodup → jlookup k l₁ = jlookup k l₂ := by
  induction h with
  | nil => intro _; rfl
  | cons p h ih =>
    intro nd
    obtain ⟨k₁, w⟩ := p
    simp only [List.map_cons] at nd
    by_cases hk : k₁ = k
    · simp [jlookup, hk]
    · simp only [jlookup, if_neg hk]
      exact ih nd.of_cons
  | swap x y l =>
    intro nd
    obtain ⟨kx, vx⟩ := x
    obtain ⟨ky, vy⟩ := y
    simp only [List.map_cons, List.nodup_cons, List.mem_cons] at nd
    by_cases hy : ky = k <;> by_cases hx : kx = k
    · exact absurd (Or.inl (hy.trans hx.symm)) nd.1
    · simp [jlookup, hy, hx]
    · simp [jlookup, hy, hx]
    · simp [jlookup, hy, hx]
  | trans h₁ _ ih₁ ih₂ =>
    intro nd
    exact (ih₁ nd).trans (ih₂ ((h₁.map Prod.fst).nodup nd))

theorem nodup_keys_insertIfMissing (k : String) (v : Json) {d : JDict}
    (nd : (d.map Prod.fst).Nodup) :
    ((insertIfMissing k v d).map Prod.fst).Nodup := by
  by_cases h : containsKey k d = true
  · rw [insertIfMissing, if_pos h]
    exact nd
  · have hk : k ∉ d.map Prod.fst := containsKey_eq_false_iff.mp (bool_eq_false h)
    rw [insertIfMissing, if_neg h, List.map_append]
    simp only [List.map_cons, List.map_nil]
    rw [List.nodup_append]
    refine ⟨nd, List.nodup_singleton k, ?_⟩
    intro a ha hb
    simp only [List.mem_singleton] at hb
    subst hb
    exact hk ha

theorem insertIfMissing_of_containsKey {k : String} {v : Json} {d : JDict}
    (h : containsKey k d = true) : insertIfMissing k v d = d := by
  rw [insertIfMissing, if_pos h]

theorem jlookup_insertIfMissing_self {k : String} {v : Json} {d : JDict}
    (h : containsKey k d = false) : jlookup k (insertIfMissing k v d) = some v := by
  have hnone : jlookup k d = none := containsKey_false_iff_none.mp h
  rw [insertIfMissing, if_neg (by rw [h]; exact Bool.false_ne_true)]
  rw [jlookup_append_none _ hnone]
  simp [jlookup]

theorem jlookup_insertIfMissing_ne {kq k : String} (hne : kq ≠ k) (v : Json)
    (d : JDict) : jlookup kq (insertIfMissing k v d) = jlookup kq d := by
  by_cases h : containsKey k d = true
  · rw [insertIfMissing, if_pos h]
  · rw [insertIfMissing, if_neg h]
    cases hq : jlookup kq d with
    | some v₂ => exact jlookup_append_some _ hq
    | none =>
      rw [jlookup_append_none _ hq]
      simp [jlookup, Ne.symm hne]

theorem containsKey_insertIfMissing_self (k : String) (v : Json) (d : JDict) :
    containsKey k (insertIfMissing k v d) = true := by
  by_cases h : containsKey k d = true
  · rwa [insertIfMissing_of_containsKey h]
  · rw [containsKey, jlookup_insertIfMissing_self (bool_eq_false h)]
    rfl

theorem containsKey_insertIfMissing_mono {kq : String} (k : String) (v : Json)
    {d : JDict} (h : containsKey kq d = true) :
    containsKey kq (insertIfMissing k v d) = true := by
  by_cases hk : kq = k
  · subst hk
    exact containsKey_insertIfMissing_self kq v d
  · rw [containsKey, jlookup_insertIfMissing_ne hk]
    exact h

theorem dumpsSortKeys_perm (d : JDict) : (dumpsSortKeys d).Perm d :=
  List.perm_insertionSort keyLE d

theorem nodup_keys_dumpsSortKeys {d : JDict} (nd : (d.map Prod.fst).Nodup) :
    ((dumpsSortKeys d).map Prod.fst).Nodup :=
  (((dumpsSortKeys_perm d).map Prod.fst).symm.nodup) nd

theorem jlookup_dumpsSortKeys (k : String) {d : JDict}
    (nd : (d.map Prod.fst).Nodup) :
    jlookup k (dumpsSortKeys d) = jlookup k d :=
  jlookup_perm k (dumpsSortKeys_perm d) (nodup_keys_dumpsSortKeys nd)

theorem containsKey_dumpsSortKeys (k : String) (d : JDict) :
    containsKey k (dumpsSortKeys d) = containsKey k d := by
  by_cases h : containsKey k d
  · rw [h, containsKey_iff_mem]
    exact ((dumpsSortKeys_perm d).map Prod.fst).mem_iff.mpr (containsKey_iff_mem.mp h)
  · have h₂ : containsKey k d = false := Bool.not_eq_true _ ▸ h
    rw [h₂, containsKey_eq_false_iff]
    intro hmem
    exact containsKey_eq_false_iff.mp h₂
      (((dumpsSortKeys_perm d).map Prod.fst).mem_iff.mp hmem)

theorem keysSorted_dumpsSortKeys (d : JDict) : keysSorted (dumpsSortKeys d) := by
  have hs : List.Sorted keyLE (dumpsSortKeys d) :=
    List.sorted_insertionSort keyLE d
  exact List.Pairwise.map Prod.fst
    (fun _ _ h => String.le_iff_toList_le.mpr h) hs

/-- The submit step's behavior when both required keys are present: the
Sink is called and every distinguished exception kind is caught and
logged. -/
theorem send_jsonline_found (sink : Sink) (payload : JDict) {dsv ridv : Json}
    (h₁ : jlookup "DATA_SOURCE" payload = some dsv)
    (h₂ : jlookup "RECORD_ID" payload = some ridv) :
    send_jsonline_to_g2_engine sink payload
      = match sink (pyStr dsv) (pyStr ridv) payload with
        | .ok => .done [.sinkAdd (pyStr dsv) (pyStr ridv) payload]
        | .translateError =>
            .done [.sinkAdd (pyStr dsv) (pyStr ridv) payload, .logTranslateError]
        | .moduleError =>
            .done [.sinkAdd (pyStr dsv) (pyStr ridv) payload, .logModuleError]
        | .genericError =>
            .done [.sinkAdd (pyStr dsv) (pyStr ridv) payload, .logModuleError] := by
  rw [send_jsonline_to_g2_engine, h₁, h₂]

/-- The Kafka iteration on a non-empty message that parsed: enrich, submit,
and the continuation depends only on how the submit step ended. -/
theorem worker_read_from_kafka_step_parsed
    (data_source entity_type : Option String) (sink : Sink) (raw : String)
    (d : JDict) (hraw : ¬ pyStrip raw = "") :
    worker_read_from_kafka_step data_source entity_type sink ⟨raw, some d⟩
      = match send_jsonline_to_g2_engine sink
          (kafka_enrich data_source entity_type d) with
        | .raised e => ([.incQueued], some e)
        | .done evs => (.incQueued :: evs ++ [.incProcessed, .commitOffset], none) := by
  rw [worker_read_from_kafka_step, if_neg hraw]

-- ---------------------------------------------------------------------------
-- str.strip lemmas
-- ---------------------------------------------------------------------------

theorem stripList_unfold (l : List Char) :
    stripList l = ((l.dropWhile isPyWhitespace).reverse.dropWhile isPyWhitespace).reverse :=
  rfl

theorem stripList_eq_self_iff {l : List Char} :
    stripList l = l ↔
      (!isPyWhitespace (l.headD 'x') && !isPyWhitespace (l.reverse.headD 'x')) = true := by
  constructor
  · intro h
    cases l with
    | nil => decide
    | cons c cs =>
      have hlen : (stripList (c :: cs)).length = (c :: cs).length := by rw [h]
      have hlen₁ : ((c :: cs).dropWhile isPyWhitespace).length = (c :: cs).length := by
        have u₁ : (stripList (c :: cs)).length
            ≤ ((c :: cs).dropWhile isPyWhitespace).length := by
          rw [stripList_unfold, List.length_reverse]
          calc (((c :: cs).dropWhile isPyWhitespace).reverse.dropWhile isPyWhitespace).length
              ≤ ((c :: cs).dropWhile isPyWhitespace).reverse.length :=
                dropWhile_length_le _ _
            _ = ((c :: cs).dropWhile isPyWhitespace).length := List.length_reverse _
        have u₂ := dropWhile_length_le isPyWhitespace (c :: cs)
        omega
      have hdw : (c :: cs).dropWhile isPyWhitespace = c :: cs :=
        ((List.dropWhile_suffix isPyWhitespace).sublist).eq_of_length hlen₁
      have hhead : isPyWhitespace c = false := by
        by_contra hc
        have hc₂ : isPyWhitespace c = true := by
          revert hc
          cases isPyWhitespace c <;> simp
        rw [List.dropWhile_cons, hc₂] at hdw
        simp only [if_true] at hdw
        have h₁ := dropWhile_length_le isPyWhitespace cs
        have h₂ := congrArg List.length hdw
        simp only [List.length_cons] at h₂
        omega
      have e₁ : (stripList (c :: cs)).length
          = ((c :: cs).reverse.dropWhile isPyWhitespace).length := by
        rw [stripList_unfold, hdw, List.length_reverse]
      have hlen₂ : ((c :: cs).reverse.dropWhile isPyWhitespace).length
          = (c :: cs).reverse.length := by
        rw [List.length_reverse, ← hlen, e₁]
      have hdw₂ : (c :: cs).reverse.dropWhile isPyWhitespace = (c :: cs).reverse :=
        ((List.dropWhile_suffix isPyWhitespace).sublist).eq_of_length hlen₂
      obtain ⟨d, ds, hds⟩ := List.exists_cons_of_ne_nil
        (l := (c :: cs).reverse) (by simp)
      have hlast : isPyWhitespace d = false := by
        by_contra hc
        have hc₂ : isPyWhitespace d = true := by
          revert hc
          cases isPyWhitespace d <;> simp
        rw [hds, List.dropWhile_cons, hc₂] at hdw₂
        simp only [if_true] at hdw₂
        have h₁ := dropWhile_length_le isPyWhitespace ds
        have h₂ := congrArg List.length hdw₂
        simp only [List.length_cons] at h₂
        omega
      have hrevhead : (c :: cs).reverse.headD 'x' = d := by
        rw [hds]
        rfl
      rw [List.headD_cons, hrevhead, hhead, hlast]
      rfl
  · intro h
    cases l with
    | nil => rfl
    | cons c cs =>
      simp only [List.headD_cons, Bool.and_eq_true, Bool.not_eq_eq_eq_not,
        Bool.not_true] at h
      obtain ⟨hhead, hlast⟩ := h
      have hdw : (c :: cs).dropWhile isPyWhitespace = c :: cs := by
        rw [List.dropWhile_cons, hhead]
        simp
      obtain ⟨d, ds, hds⟩ := List.exists_cons_of_ne_nil
        (l := (c :: cs).reverse) (by simp)
      have hlast₂ : isPyWhitespace d = false := by
        rw [hds] at hlast
        simpa using hlast
      have hdw₂ : (c :: cs).reverse.dropWhile isPyWhitespace = (c :: cs).reverse := by
        rw [hds, List.dropWhile_cons, hlast₂]
        simp
      rw [stripList_unfold, hdw, hdw₂, List.reverse_reverse]

theorem pyStrip_eq_self_iff {s : String} :
    pyStrip s = s ↔ noEdgeWhitespace s = true := by
  rw [noEdgeWhitespace, ← stripList_eq_self_iff]
  constructor
  · intro h
    have := congrArg String.data h
    simpa [pyStrip] using this
  · intro h
    show String.mk (stripList s.data) = s
    rw [h]

-- ---------------------------------------------------------------------------
-- Counter lemmas
-- ---------------------------------------------------------------------------

theorem applyEvent_bad (c : Counters) (e : Event) : (applyEvent c e).bad = c.bad := by
  cases e <;> rfl

theorem applyEvents_bad (evs : List Event) (c : Counters) :
    (applyEvents c evs).bad = c.bad := by
  induction evs generalizing c with
  | nil => rfl
  | cons e rest ih => rw [applyEvents, List.foldl_cons, ← applyEvents, ih, applyEvent_bad]

-- ---------------------------------------------------------------------------
-- Claim theorems
-- ---------------------------------------------------------------------------

/-- C2, counterexample: with both defaults unset the factory picks
result_function_1, and on a well-formed JSON line carrying its trailing
newline the queued output differs from the input: line.strip() removes the
newline, so the enricher is not the bit-for-bit identity. -/
theorem enricher_fast_path_not_identity_cx :
    create_output_line_function_factory none none = EnricherChoice.f1
    ∧ result_function_1 "\x7b\"A\": 1\x7d\n" ≠ "\x7b\"A\": 1\x7d\n" := by
  exact ⟨rfl, by decide⟩

/-- C2, amended: with both defaults unset the chosen output-line function is
the fast path result_function_1, which queues the input line with leading
and trailing whitespace stripped and performs no JSON decoding; it is the
identity exactly on lines with no leading or trailing whitespace. -/
theorem enricher_fast_path_is_strip (line : String) :
    create_output_line_function_factory none none = EnricherChoice.f1
    ∧ result_function_1 line = pyStrip line
    ∧ (result_function_1 line = line ↔ noEdgeWhitespace line = true) :=
  ⟨rfl, rfl, pyStrip_eq_self_iff⟩

theorem enricher_fast_path_is_strip_witness :
    result_function_1 "data" = "data" :=
  (enricher_fast_path_is_strip "data").2.2.mpr (by decide)

/-- C6: input_lines_from_stdin increments counter_queued_records before
testing the line, so a stream of N lines produces N + 1 increments — one
per line plus one for the end-of-stream empty read — while the sibling
input_lines_from_file source produces exactly N; both hand the lines over
one at a time in order and return (terminating the source loop, not the
process). -/
theorem input_lines_from_stdin_counts_eof_read (stream : List String)
    (h : ∀ l ∈ stream, l ≠ "") :
    input_lines_from_stdin stream = (stream.length + 1, stream)
    ∧ input_lines_from_file stream = (stream.length, stream) := by
  induction stream with
  | nil => exact ⟨rfl, rfl⟩
  | cons line rest ih =>
    have hline : line ≠ "" := h line (by simp)
    have hrest : ∀ l ∈ rest, l ≠ "" := fun l hl => h l (by simp [hl])
    obtain ⟨ih₁, ih₂⟩ := ih hrest
    constructor
    · rw [input_lines_from_stdin, if_neg hline, ih₁]
      simp
    · rw [input_lines_from_file, if_neg hline, ih₂]
      simp

theorem input_lines_from_stdin_counts_eof_read_witness :
    input_lines_from_stdin ["line one\n"] = (2, ["line one\n"])
    ∧ input_lines_from_file ["line one\n"] = (1, ["line one\n"]) :=
  input_lines_from_stdin_counts_eof_read ["line one\n"] (by decide)

/-- C7: the monitor's interval rate is the counter delta divided by the
elapsed seconds truncated to an integer (100 to 220 over 60 seconds gives
2), and the starvation warning fires exactly when the alive/total worker
ratio is strictly below one half (warning at 4 alive of 10, none at 5 of
10). -/
theorem worker_monitor_rates_and_starvation (workers : List Bool)
    (h : workers ≠ []) :
    rate_processed_interval 220 100 60 = 2
    ∧ (starvation_warning workers ↔ 2 * active_workers workers < workers.length)
    ∧ starvation_warning
        [false, false, false, false, true, true, true, true, true, true]
    ∧ ¬ starvation_warning
        [false, false, false, false, false, true, true, true, true, true] := by
  refine ⟨?_, ?_, ?_, ?_⟩
  · rw [rate_processed_interval,
      show ((((220 : Nat) : Int) - ((100 : Nat) : Int) : Int) : ℚ) / (60 : ℚ) = 2 by norm_num,
      pyInt, if_pos (by norm_num)]
    norm_num
  · rw [starvation_warning]
    have ht : (0 : ℚ) < workers.length := by
      have hl := List.length_pos.mpr h
      exact_mod_cast hl
    rw [div_lt_iff₀ ht]
    constructor
    · intro hlt
      have h₂ : (2 * active_workers workers : ℚ) < workers.length := by linarith
      exact_mod_cast h₂
    · intro hlt
      have h₂ : (2 * active_workers workers : ℚ) < workers.length := by exact_mod_cast hlt
      linarith
  · rw [starvation_warning,
      show active_workers [false, false, false, false, true, true, true, true, true, true] = 4
        from rfl,
      show ([false, false, false, false, true, true, true, true, true, true] : List Bool).length = 10
        from rfl]
    norm_num
  · rw [starvation_warning,
      show active_workers [false, false, false, false, false, true, true, true, true, true] = 5
        from rfl,
      show ([false, false, false, false, false, true, true, true, true, true] : List Bool).length = 10
        from rfl]
    norm_num

theorem worker_monitor_rates_and_starvation_witness :
    rate_processed_interval 220 100 60 = 2
    ∧ (starvation_warning [false] ↔ 2 * active_workers [false] < ([false] : List Bool).length) :=
  ⟨(worker_monitor_rates_and_starvation [false] (by simp)).1,
   (worker_monitor_rates_and_starvation [false] (by simp)).2.1⟩

/-- C4: the g2-engine queue worker calls get() with no timeout, so once the
producers are finished and the queue is drained it blocks forever instead
of exiting: its loop never reaches the except-Empty quitting-time exit on
any input, and on the drained queue it ends blocked — while the test-mode
log worker, whose get uses timeout=1, does reach the quitting-time exit. -/
theorem worker_pool_never_exits_on_drain (sink : Sink) (q : List QueueEntry)
    (n : Nat) :
    (worker_send_jsonlines_to_g2_engine sink q n).2 ≠ WorkerEnd.quittingTime
    ∧ worker_send_jsonlines_to_g2_engine sink [] n = (n, WorkerEnd.blockedForever)
    ∧ worker_send_jsonlines_to_log [] n = (n, WorkerEnd.quittingTime) := by
  refine ⟨?_, rfl, rfl⟩
  induction q generalizing n with
  | nil => simp [worker_send_jsonlines_to_g2_engine, gevent_queue_get]
  | cons entry rest ih =>
    cases hsend : send_jsonline_on_entry sink entry with
    | raised e =>
      rw [worker_send_jsonlines_to_g2_engine, hsend]
      simp
    | done evs =>
      rw [worker_send_jsonlines_to_g2_engine, hsend]
      exact ih (n + 1)

theorem worker_pool_never_exits_on_drain_witness :
    (worker_send_jsonlines_to_g2_engine (fun _ _ _ => SinkOutcome.ok) [] 0).2
      ≠ WorkerEnd.quittingTime :=
  (worker_pool_never_exits_on_drain (fun _ _ _ => SinkOutcome.ok) [] 0).1

/-- C1, counterexample: a queue entry that parses but lacks DATA_SOURCE is
not a fatal-to-this-record-only condition: the KeyError raised by the
lookup escapes the submit step and the worker loop ends crashed without
processing the following well-formed entry, even with a Sink that always
succeeds. -/
theorem missing_data_source_aborts_worker_cx :
    worker_send_jsonlines_to_g2_engine (fun _ _ _ => SinkOutcome.ok)
        [some [("A", Json.num 1)],
         some [("DATA_SOURCE", Json.str "TEST"), ("RECORD_ID", Json.str "1")]] 0
      = (0, WorkerEnd.crashed (PyErr.keyError "DATA_SOURCE")) := by
  rfl

/-- C1, amended: for a queue entry carrying both DATA_SOURCE and RECORD_ID,
every Sink error of either kind (translation/validation or engine) is
caught and logged inside the submit step and the worker continues with the
next queue entry; but an entry missing DATA_SOURCE — or one carrying
DATA_SOURCE while missing RECORD_ID — raises an uncaught KeyError naming
that key, which aborts the worker loop and propagates past the worker. -/
theorem sink_errors_never_abort_worker_missing_keys_abort
    (sink : Sink) (d : JDict) (rest : List QueueEntry) (n : Nat)
    (hds : containsKey "DATA_SOURCE" d = true)
    (hrid : containsKey "RECORD_ID" d = true) :
    worker_send_jsonlines_to_g2_engine sink (some d :: rest) n
      = worker_send_jsonlines_to_g2_engine sink rest (n + 1)
    ∧ (∀ d₂ : JDict, containsKey "DATA_SOURCE" d₂ = false →
        worker_send_jsonlines_to_g2_engine sink (some d₂ :: rest) n
          = (n, WorkerEnd.crashed (PyErr.keyError "DATA_SOURCE")))
    ∧ (∀ d₃ : JDict, containsKey "DATA_SOURCE" d₃ = true →
        containsKey "RECORD_ID" d₃ = false →
        worker_send_jsonlines_to_g2_engine sink (some d₃ :: rest) n
          = (n, WorkerEnd.crashed (PyErr.keyError "RECORD_ID"))) := by
  refine ⟨?_, ?_, ?_⟩
  · have hds₂ : (jlookup "DATA_SOURCE" d).isSome = true := by
      rwa [containsKey] at hds
    obtain ⟨dsv, hdsv⟩ := Option.isSome_iff_exists.mp hds₂
    have hrid₂ : (jlookup "RECORD_ID" d).isSome = true := by
      rwa [containsKey] at hrid
    obtain ⟨ridv, hridv⟩ := Option.isSome_iff_exists.mp hrid₂
    have hsend : ∃ evs, send_jsonline_on_entry sink (some d) = .done evs := by
      rw [send_jsonline_on_entry, send_jsonline_found sink d hdsv hridv]
      cases sink (pyStr dsv) (pyStr ridv) d <;> exact ⟨_, rfl⟩
    obtain ⟨evs, hevs⟩ := hsend
    rw [worker_send_jsonlines_to_g2_engine, hevs]
  · intro d₂ h₂
    have hnone : jlookup "DATA_SOURCE" d₂ = none := containsKey_false_iff_none.mp h₂
    rw [worker_send_jsonlines_to_g2_engine, send_jsonline_on_entry,
      send_jsonline_to_g2_engine, hnone]
  · intro d₃ h₃ h₄
    have hds₃ : (jlookup "DATA_SOURCE" d₃).isSome = true := by
      rwa [containsKey] at h₃
    obtain ⟨dsv, hdsv⟩ := Option.isSome_iff_exists.mp hds₃
    have hnone : jlookup "RECORD_ID" d₃ = none := containsKey_false_iff_none.mp h₄
    rw [worker_send_jsonlines_to_g2_engine, send_jsonline_on_entry,
      send_jsonline_to_g2_engine, hdsv, hnone]

theorem sink_errors_never_abort_worker_missing_keys_abort_witness :
    worker_send_jsonlines_to_g2_engine (fun _ _ _ => SinkOutcome.genericError)
        [some [("DATA_SOURCE", Json.str "TEST"), ("RECORD_ID", Json.str "1")]] 0
      = worker_send_jsonlines_to_g2_engine
          (fun _ _ _ => SinkOutcome.genericError) [] 1 :=
  (sink_errors_never_abort_worker_missing_keys_abort
    (fun _ _ _ => SinkOutcome.genericError)
    [("DATA_SOURCE", Json.str "TEST"), ("RECORD_ID", Json.str "1")] [] 0
    (by decide) (by decide)).1

/-- C3: in the Kafka loop, a non-empty message whose value fails JSON
parsing yields exactly the events increment-queued, log-invalid-json,
commit-offset: the offset is committed, the queued counter rises by one,
the processed and bad counters are unchanged, and no addRecord call
reaches the Sink for that message. -/
theorem kafka_malformed_message_committed_not_processed
    (data_source entity_type : Option String) (sink : Sink) (raw : String)
    (c : Counters) (hraw : ¬ pyStrip raw = "") :
    worker_read_from_kafka_step data_source entity_type sink ⟨raw, none⟩
      = ([Event.incQueued, Event.logInvalidJson, Event.commitOffset], none)
    ∧ applyEvents c [Event.incQueued, Event.logInvalidJson, Event.commitOffset]
      = ⟨c.queued + 1, c.processed, c.bad⟩
    ∧ Event.commitOffset
        ∈ [Event.incQueued, Event.logInvalidJson, Event.commitOffset]
    ∧ ∀ a b p, Event.sinkAdd a b p
        ∉ [Event.incQueued, Event.logInvalidJson, Event.commitOffset] := by
  refine ⟨?_, rfl, by simp, by intro a b p; simp⟩
  rw [worker_read_from_kafka_step, if_neg hraw]

theorem kafka_malformed_message_committed_not_processed_witness :
    worker_read_from_kafka_step none none (fun _ _ _ => SinkOutcome.ok)
        ⟨"not-json", none⟩
      = ([Event.incQueued, Event.logInvalidJson, Event.commitOffset], none) :=
  (kafka_malformed_message_committed_not_processed none none
    (fun _ _ _ => SinkOutcome.ok) "not-json" ⟨0, 0, 0⟩ (by decide)).1

/-- C8, counterexample: running the Kafka loop over the scenario-B message
pair — one malformed message followed by one well-formed record — leaves
counter_bad_records at zero (and the loop continues, ending without
error): the bad-record counter is not incremented by the worker that met
the malformed record. -/
theorem counter_bad_records_scenario_cx :
    worker_read_from_kafka_run none none (fun _ _ _ => SinkOutcome.ok)
        [⟨"not-json", none⟩,
         ⟨"\x7b\"RECORD_ID\": \"2\"\x7d", some [("RECORD_ID", Json.str "2")]⟩]
        ⟨0, 0, 0⟩
      = (⟨2, 1, 0⟩, none) := by
  have hnd₂ : ((insertIfMissing "ENTITY_TYPE" Json.null
      (insertIfMissing "DATA_SOURCE" Json.null
        [("RECORD_ID", Json.str "2")])).map Prod.fst).Nodup :=
    nodup_keys_insertIfMissing _ _
      (nodup_keys_insertIfMissing _ _ (by simp))
  have hdsv : jlookup "DATA_SOURCE"
      (kafka_enrich none none [("RECORD_ID", Json.str "2")]) = some Json.null := by
    rw [kafka_enrich]
    show jlookup "DATA_SOURCE" (dumpsSortKeys (insertIfMissing "ENTITY_TYPE" Json.null
      (insertIfMissing "DATA_SOURCE" Json.null [("RECORD_ID", Json.str "2")])))
      = some Json.null
    rw [jlookup_dumpsSortKeys _ hnd₂,
      jlookup_insertIfMissing_ne (by decide) Json.null,
      jlookup_insertIfMissing_self (by decide)]
  have hridv : jlookup "RECORD_ID"
      (kafka_enrich none none [("RECORD_ID", Json.str "2")])
      = some (Json.str "2") := by
    rw [kafka_enrich]
    show jlookup "RECORD_ID" (dumpsSortKeys (insertIfMissing "ENTITY_TYPE" Json.null
      (insertIfMissing "DATA_SOURCE" Json.null [("RECORD_ID", Json.str "2")])))
      = some (Json.str "2")
    rw [jlookup_dumpsSortKeys _ hnd₂,
      jlookup_insertIfMissing_ne (by decide) Json.null,
      jlookup_insertIfMissing_ne (by decide) Json.null]
    rfl
  have h₁ : worker_read_from_kafka_step none none (fun _ _ _ => SinkOutcome.ok)
      ⟨"not-json", none⟩
      = ([Event.incQueued, Event.logInvalidJson, Event.commitOffset], none) := by
    rw [worker_read_from_kafka_step, if_neg (by decide)]
  have h₂ : worker_read_from_kafka_step none none (fun _ _ _ => SinkOutcome.ok)
      ⟨"\x7b\"RECORD_ID\": \"2\"\x7d", some [("RECORD_ID", Json.str "2")]⟩
      = ([Event.incQueued,
          Event.sinkAdd "None" "2" (kafka_enrich none none [("RECORD_ID", Json.str "2")]),
          Event.incProcessed, Event.commitOffset], none) := by
    rw [worker_read_from_kafka_step_parsed none none _ _ _ (by decide),
      send_jsonline_found _ _ hdsv hridv]
    rfl
  rw [worker_read_from_kafka_run, h₁]
  show worker_read_from_kafka_run none none (fun _ _ _ => SinkOutcome.ok)
    [⟨"\x7b\"RECORD_ID\": \"2\"\x7d", some [("RECORD_ID", Json.str "2")]⟩]
    ⟨1, 0, 0⟩ = (⟨2, 1, 0⟩, none)
  rw [worker_read_from_kafka_run, h₂]
  rfl

/-- C8, amended: counter_bad_records is initialized to zero and never
incremented by any modelled code path: over every sequence of Kafka
messages and with any Sink, the bad counter after the run equals the bad
counter before (on the queue path a malformed record aborts the worker
instead of being counted). -/
theorem counter_bad_records_never_incremented
    (data_source entity_type : Option String) (sink : Sink)
    (msgs : List KafkaMessage) (c : Counters) :
    ((worker_read_from_kafka_run data_source entity_type sink msgs c).1).bad
      = c.bad := by
  induction msgs generalizing c with
  | nil => rfl
  | cons msg rest ih =>
    rw [worker_read_from_kafka_run]
    cases hstep : worker_read_from_kafka_step data_source entity_type sink msg with
    | mk evs err =>
      cases err with
      | some e => exact applyEvents_bad _ _
      | none => exact (ih _).trans (applyEvents_bad _ _)

/-- C9: for every Kafka message that parses to a record (a payload carrying
RECORD_ID), whatever the Sink outcome, the iteration's events are exactly:
increment queued, hand the enriched record to the Sink, zero or one error
log, increment processed, and only then the synchronous commit of the
offset — so the commit never precedes the submit. -/
theorem kafka_commit_follows_submit_then_processed
    (data_source entity_type : Option String) (sink : Sink) (raw : String)
    (d : JDict) (hraw : ¬ pyStrip raw = "")
    (hrid : containsKey "RECORD_ID" d = true) :
    ∃ dsTag rid logEvs,
      worker_read_from_kafka_step data_source entity_type sink ⟨raw, some d⟩
        = (Event.incQueued
            :: Event.sinkAdd dsTag rid (kafka_enrich data_source entity_type d)
            :: (logEvs ++ [Event.incProcessed, Event.commitOffset]), none)
      ∧ ∀ e ∈ logEvs, e.isLog = true := by
  have hcds : containsKey "DATA_SOURCE"
      (kafka_enrich data_source entity_type d) = true := by
    rw [kafka_enrich, containsKey_dumpsSortKeys]
    exact containsKey_insertIfMissing_mono _ _ (containsKey_insertIfMissing_self _ _ _)
  have hcrid : containsKey "RECORD_ID"
      (kafka_enrich data_source entity_type d) = true := by
    rw [kafka_enrich, containsKey_dumpsSortKeys]
    exact containsKey_insertIfMissing_mono _ _ (containsKey_insertIfMissing_mono _ _ hrid)
  have hcds₂ : (jlookup "DATA_SOURCE"
      (kafka_enrich data_source entity_type d)).isSome = true := by
    rwa [containsKey] at hcds
  obtain ⟨dsv, hdsv⟩ := Option.isSome_iff_exists.mp hcds₂
  have hcrid₂ : (jlookup "RECORD_ID"
      (kafka_enrich data_source entity_type d)).isSome = true := by
    rwa [containsKey] at hcrid
  obtain ⟨ridv, hridv⟩ := Option.isSome_iff_exists.mp hcrid₂
  refine ⟨pyStr dsv, pyStr ridv, ?_⟩
  rw [worker_read_from_kafka_step_parsed data_source entity_type sink raw d hraw,
    send_jsonline_found sink _ hdsv hridv]
  cases sink (pyStr dsv) (pyStr ridv) (kafka_enrich data_source entity_type d) with
  | ok => exact ⟨[], rfl, by simp⟩
  | translateError => exact ⟨[.logTranslateError], rfl, by simp [Event.isLog]⟩
  | moduleError => exact ⟨[.logModuleError], rfl, by simp [Event.isLog]⟩
  | genericError => exact ⟨[.logModuleError], rfl, by simp [Event.isLog]⟩

theorem kafka_commit_follows_submit_then_processed_witness :
    ∃ dsTag rid logEvs,
      worker_read_from_kafka_step none none (fun _ _ _ => SinkOutcome.ok)
          ⟨"\x7b\"RECORD_ID\": \"1\"\x7d", some [("RECORD_ID", Json.str "1")]⟩
        = (Event.incQueued
            :: Event.sinkAdd dsTag rid (kafka_enrich none none [("RECORD_ID", Json.str "1")])
            :: (logEvs ++ [Event.incProcessed, Event.commitOffset]), none)
      ∧ ∀ e ∈ logEvs, e.isLog = true :=
  kafka_commit_follows_submit_then_processed none none
    (fun _ _ _ => SinkOutcome.ok) "\x7b\"RECORD_ID\": \"1\"\x7d"
    [("RECORD_ID", Json.str "1")] (by decide) (by decide)

/-- C10: on the Kafka path the defaults are injected even when
unconfigured: a well-parsed message without DATA_SOURCE (and without
ENTITY_TYPE) gets those keys injected with the null value, and the record
is then handed to the Sink with the string None as its data-source tag and
counted processed — not rejected or dropped. -/
theorem kafka_unconfigured_defaults_inject_null
    (sink : Sink) (raw : String) (d : JDict)
    (hraw : ¬ pyStrip raw = "")
    (hnd : (d.map Prod.fst).Nodup)
    (hds : containsKey "DATA_SOURCE" d = false)
    (hrid : containsKey "RECORD_ID" d = true) :
    jlookup "DATA_SOURCE" (kafka_enrich none none d) = some Json.null
    ∧ (containsKey "ENTITY_TYPE" d = false →
        jlookup "ENTITY_TYPE" (kafka_enrich none none d) = some Json.null)
    ∧ ∃ rid logEvs,
        worker_read_from_kafka_step none none sink ⟨raw, some d⟩
          = (Event.incQueued
              :: Event.sinkAdd "None" rid (kafka_enrich none none d)
              :: (logEvs ++ [Event.incProcessed, Event.commitOffset]), none) := by
  have hnd₁ : ((insertIfMissing "DATA_SOURCE" Json.null d).map Prod.fst).Nodup :=
    nodup_keys_insertIfMissing _ _ hnd
  have hnd₂ : ((insertIfMissing "ENTITY_TYPE" Json.null
      (insertIfMissing "DATA_SOURCE" Json.null d)).map Prod.fst).Nodup :=
    nodup_keys_insertIfMissing _ _ hnd₁
  have hdsv : jlookup "DATA_SOURCE" (kafka_enrich none none d) = some Json.null := by
    rw [kafka_enrich]
    show jlookup "DATA_SOURCE" (dumpsSortKeys (insertIfMissing "ENTITY_TYPE" Json.null
      (insertIfMissing "DATA_SOURCE" Json.null d))) = some Json.null
    rw [jlookup_dumpsSortKeys _ hnd₂,
      jlookup_insertIfMissing_ne (by decide) Json.null,
      jlookup_insertIfMissing_self hds]
  refine ⟨hdsv, ?_, ?_⟩
  · intro het
    have het₁ : containsKey "ENTITY_TYPE"
        (insertIfMissing "DATA_SOURCE" Json.null d) = false := by
      rw [containsKey, jlookup_insertIfMissing_ne (by decide) Json.null,
        containsKey_false_iff_none.mp het]
      rfl
    rw [kafka_enrich]
    show jlookup "ENTITY_TYPE" (dumpsSortKeys (insertIfMissing "ENTITY_TYPE" Json.null
      (insertIfMissing "DATA_SOURCE" Json.null d))) = some Json.null
    rw [jlookup_dumpsSortKeys _ hnd₂, jlookup_insertIfMissing_self het₁]
  · have hcrid : containsKey "RECORD_ID" (kafka_enrich none none d) = true := by
      rw [kafka_enrich, containsKey_dumpsSortKeys]
      exact containsKey_insertIfMissing_mono _ _
        (containsKey_insertIfMissing_mono _ _ hrid)
    have hcrid₂ : (jlookup "RECORD_ID"
        (kafka_enrich none none d)).isSome = true := by
      rwa [containsKey] at hcrid
    obtain ⟨ridv, hridv⟩ := Option.isSome_iff_exists.mp hcrid₂
    refine ⟨pyStr ridv, ?_⟩
    rw [worker_read_from_kafka_step_parsed none none sink raw d hraw,
      send_jsonline_found sink _ hdsv hridv]
    cases sink (pyStr Json.null) (pyStr ridv) (kafka_enrich none none d) with
    | ok => exact ⟨[], rfl⟩
    | translateError => exact ⟨[.logTranslateError], rfl⟩
    | moduleError => exact ⟨[.logModuleError], rfl⟩
    | genericError => exact ⟨[.logModuleError], rfl⟩

theorem kafka_unconfigured_defaults_inject_null_witness :
    jlookup "DATA_SOURCE"
        (kafka_enrich none none [("RECORD_ID", Json.str "1")])
      = some Json.null :=
  (kafka_unconfigured_defaults_inject_null (fun _ _ _ => SinkOutcome.ok)
    "\x7b\"RECORD_ID\": \"1\"\x7d" [("RECORD_ID", Json.str "1")]
    (by decide) (by decide) (by decide) (by decide)).1

/-- C5: with a dataSource default D configured (entity_type default unset
or set to E), a parsed line lacking DATA_SOURCE is enriched so that the
output carries DATA_SOURCE = D; a line that already has a DATA_SOURCE
value keeps that value (the default never overwrites); and the output is
re-serialized with its keys in sorted order. -/
theorem data_source_default_injected_never_overwritten
    (D E : String) (d : JDict) (hnd : (d.map Prod.fst).Nodup) :
    (containsKey "DATA_SOURCE" d = false →
      jlookup "DATA_SOURCE" (result_function_2 D d) = some (Json.str D)
      ∧ jlookup "DATA_SOURCE" (result_function_4 D E d) = some (Json.str D))
    ∧ (∀ v, jlookup "DATA_SOURCE" d = some v →
      jlookup "DATA_SOURCE" (result_function_2 D d) = some v
      ∧ jlookup "DATA_SOURCE" (result_function_4 D E d) = some v)
    ∧ keysSorted (result_function_2 D d)
    ∧ keysSorted (result_function_4 D E d) := by
  have hnd₁ : ((insertIfMissing "DATA_SOURCE" (Json.str D) d).map Prod.fst).Nodup :=
    nodup_keys_insertIfMissing _ _ hnd
  have hnd₂ : ((insertIfMissing "ENTITY_TYPE" (Json.str E)
      (insertIfMissing "DATA_SOURCE" (Json.str D) d)).map Prod.fst).Nodup :=
    nodup_keys_insertIfMissing _ _ hnd₁
  refine ⟨?_, ?_, keysSorted_dumpsSortKeys _, keysSorted_dumpsSortKeys _⟩
  · intro habs
    constructor
    · rw [result_function_2, jlookup_dumpsSortKeys _ hnd₁,
        jlookup_insertIfMissing_self habs]
    · rw [result_function_4, jlookup_dumpsSortKeys _ hnd₂,
        jlookup_insertIfMissing_ne (by decide) (Json.str E),
        jlookup_insertIfMissing_self habs]
  · intro v hv
    have hpres : containsKey "DATA_SOURCE" d = true := by
      rw [containsKey, hv]
      rfl
    constructor
    · rw [result_function_2, jlookup_dumpsSortKeys _ hnd₁,
        insertIfMissing_of_containsKey hpres, hv]
    · rw [result_function_4, jlookup_dumpsSortKeys _ hnd₂,
        jlookup_insertIfMissing_ne (by decide) (Json.str E),
        insertIfMissing_of_containsKey hpres, hv]

theorem data_source_default_injected_never_overwritten_witness :
    jlookup "DATA_SOURCE"
        (result_function_2 "PEOPLE" [("RECORD_ID", Json.str "1")])
      = some (Json.str "PEOPLE") :=
  ((data_source_default_injected_never_overwritten "PEOPLE" "GENERIC"
      [("RECORD_ID", Json.str "1")] (by decide)).1 (by decide)).1

end StreamLoader
